import Mathlib

/-!
Verification of the WhatsApp multi-provider n8n node pair
(`WhatsAppConfig` in the config node and `WhatsAppSendMessage` with its
three provider builders `sendWhatsAppOfficial`, `sendZApi`,
`sendEvolutionApi`).

The embedding is shallow: every builder is a pure function from the
node parameters and projected credentials to either a thrown
`NodeOperationError` (`Except.error`) or the fully built HTTP request
options that the code hands to `this.helpers.httpRequest`
(`Except.ok`).  An `Except.ok` result therefore means "an HTTP request
is attempted with exactly this descriptor"; an `Except.error` result
means the item failed synchronously and no network call happens.

JavaScript-specific semantics are modelled explicitly:
* template-literal interpolation of a possibly `undefined` value is
  `jsStr` (an absent field renders as the string `"undefined"`);
* the truthiness-based `a || b` on strings (only `""` is falsy) is
  `jsOr`, and `jsOrOpt` is the same with a possibly `undefined` left
  operand;
* `JSON.parse` of the `listSections` parameter is the host runtime's
  parser, not code of this repository; its outcome is modelled as the
  `listSections : Option (List Section)` field of `Params`, where
  `none` stands for "the raw string was not parsable as JSON" (the
  `try { JSON.parse } catch` in each builder).
-/

namespace WhatsApp

set_option maxRecDepth 40000

/-- JSON values as produced by the builders (only strings, objects and
arrays occur in the request bodies; object fields keep insertion
order, as JavaScript object literals do). -/
inductive Json where
  | str (s : String)
  | obj (fields : List (String × Json))
  | arr (elems : List Json)

/-- A thrown `NodeOperationError`, identified by its message. -/
structure NodeError where
  message : String
deriving DecidableEq, Repr

/-- The `IHttpRequestOptions` value handed to `this.helpers.httpRequest`:
method, url, headers and JSON body. -/
structure RequestDescriptor where
  method : String
  url : String
  headers : List (String × String)
  body : Json

/-- One row of a parsed `listSections` entry: `{id, title, description?}`;
`description` is optional in the documented format. -/
structure Row where
  id : String
  title : String
  description : Option String

/-- One section of a parsed `listSections` value: a title and its rows. -/
structure Section where
  title : String
  rows : List Row

/-- The node parameters read via `this.getNodeParameter` in
`WhatsAppSendMessage`.  `listSections` holds the result of
`JSON.parse` on the raw `listSections` string: `none` models a parse
failure (the `catch` branch). -/
structure Params where
  message : String
  mediaUrl : String
  caption : String
  filename : String
  listTitle : String
  listDescription : String
  buttonText : String
  footerText : String
  listSections : Option (List Section)

/-- The projected credential object (`IDataObject`) received by the send
node; every field is optional because the config node only includes
the selected provider's keys. -/
structure Credentials where
  accessToken : Option String
  phoneNumberId : Option String
  businessAccountId : Option String
  instanceId : Option String
  token : Option String
  clientToken : Option String
  baseUrl : Option String
  apiKey : Option String
  instanceName : Option String

/-- The `whatsappConfig` object attached to an item by the config node. -/
structure WhatsAppConfig where
  apiProvider : String
  credentials : Credentials

/-- JavaScript template-literal rendering of a possibly `undefined`
string value. -/
def jsStr : Option String → String
  | some s => s
  | none => "undefined"

/-- JavaScript `a || b` on strings: only the empty string is falsy. -/
def jsOr (a b : String) : String :=
  if a = "" then b else a

/-- JavaScript `a || b` where `a` may be `undefined`. -/
def jsOrOpt : Option String → String → String
  | some s, b => jsOr s b
  | none, b => b

/-- The error thrown when `listSections` fails to parse. -/
def malformedListSectionsError : NodeError :=
  { message := "Invalid JSON format for List Sections" }

/-- The error thrown when the `whatsappConfig` object is absent or its
`apiProvider` is falsy. -/
def missingConfigError : NodeError :=
  { message := "WhatsApp configuration not found. Please add a WhatsApp Config node before this node." }

/-- The error thrown by the `default` arm of the provider switch. -/
def unknownProviderError (provider : String) : NodeError :=
  { message := "Unknown API provider: " ++ provider }

/-- Recognises the unknown-provider error by its fixed message head. -/
def isUnknownProviderError (e : NodeError) : Bool :=
  e.message.take 22 = "Unknown API provider: "

/-- `true` iff the builder reached `this.helpers.httpRequest`, i.e. an
HTTP request is attempted for the item. -/
def reqAttempted : Except NodeError RequestDescriptor → Bool
  | Except.ok _ => true
  | Except.error _ => false

/-- Key lookup in a JSON object's field list (first match). -/
def lookupField : List (String × Json) → String → Option Json
  | [], _ => none
  | (k, v) :: rest, key => if k = key then some v else lookupField rest key

/-- Key lookup on a JSON value (`none` on non-objects). -/
def Json.lookupKey : Json → String → Option Json
  | Json.obj fields, key => lookupField fields key
  | _, _ => none

/-- Looks up a top-level key of the request body of a builder result. -/
def bodyLookup (r : Except NodeError RequestDescriptor) (key : String) : Option Json :=
  match r with
  | Except.ok d => d.body.lookupKey key
  | Except.error _ => none

/-- Embedding of `sendWhatsAppOfficial` (WhatsAppSendMessage.node.ts):
destructures `accessToken` and `phoneNumberId`, builds the Graph API
URL, dispatches on `messageType` to produce the message body, and
returns the `POST` options passed to `httpRequest`. -/
def sendWhatsAppOfficial (credentials : Credentials) (phoneNumber : String)
    (messageType : String) (p : Params) : Except NodeError RequestDescriptor :=
  let baseUrl := "https://graph.facebook.com/v18.0/" ++ jsStr credentials.phoneNumberId ++ "/messages"
  let base : List (String × Json) :=
    [("messaging_product", Json.str "whatsapp"), ("to", Json.str phoneNumber)]
  let bodyE : Except NodeError (List (String × Json)) :=
    if messageType = "text" then
      Except.ok (base ++ [("type", Json.str "text"),
        ("text", Json.obj [("body", Json.str p.message)])])
    else if messageType = "buttonList" then
      match p.listSections with
      | none => Except.error malformedListSectionsError
      | some listSections =>
        let interactive : List (String × Json) :=
          [("type", Json.str "list"),
           ("body", Json.obj [("text", Json.str (jsOr p.listDescription p.listTitle))]),
           ("action", Json.obj
             [("button", Json.str p.buttonText),
              ("sections", Json.arr (listSections.map (fun s => Json.obj
                [("title", Json.str s.title),
                 ("rows", Json.arr (s.rows.map (fun row => Json.obj
                   [("id", Json.str row.id),
                    ("title", Json.str row.title),
                    ("description", Json.str (jsOrOpt row.description ""))])))])))])]
        let interactive := interactive ++
          (if p.listTitle ≠ "" ∧ p.listDescription ≠ "" then
            [("header", Json.obj [("type", Json.str "text"), ("text", Json.str p.listTitle)])]
          else [])
        let interactive := interactive ++
          (if p.footerText ≠ "" then
            [("footer", Json.obj [("text", Json.str p.footerText)])]
          else [])
        Except.ok (base ++ [("type", Json.str "interactive"),
          ("interactive", Json.obj interactive)])
    else
      let mediaObject : List (String × Json) :=
        [("link", Json.str p.mediaUrl)] ++
        (if p.caption ≠ "" ∧ (messageType = "image" ∨ messageType = "video" ∨ messageType = "document") then
          [("caption", Json.str p.caption)]
        else []) ++
        (if messageType = "document" ∧ p.filename ≠ "" then
          [("filename", Json.str p.filename)]
        else [])
      Except.ok (base ++ [("type", Json.str messageType), (messageType, Json.obj mediaObject)])
  bodyE.map (fun b =>
    { method := "POST"
      url := baseUrl
      headers := [("Authorization", "Bearer " ++ jsStr credentials.accessToken),
                  ("Content-Type", "application/json")]
      body := Json.obj b })

/-- Embedding of `sendZApi` (WhatsAppSendMessage.node.ts): destructures
`instanceId`, `token`, `clientToken`, `baseUrl`, picks an endpoint and
body per `messageType` (the media switch has no `default`, so an
unknown type leaves the endpoint empty), and returns the `POST`
options.  The `buttonList` flattening mirrors the nested
`forEach`/`push` loop as nested left folds. -/
def sendZApi (credentials : Credentials) (phoneNumber : String)
    (messageType : String) (p : Params) : Except NodeError RequestDescriptor :=
  let root := jsStr credentials.baseUrl ++ "/instances/" ++ jsStr credentials.instanceId
    ++ "/token/" ++ jsStr credentials.token
  let base : List (String × Json) := [("phone", Json.str phoneNumber)]
  let build : Except NodeError (String × List (String × Json)) :=
    if messageType = "text" then
      Except.ok (root ++ "/send-text", base ++ [("message", Json.str p.message)])
    else if messageType = "buttonList" then
      match p.listSections with
      | none => Except.error malformedListSectionsError
      | some listSections =>
        let buttons : List Json :=
          listSections.foldl (fun acc s =>
            s.rows.foldl (fun acc2 row =>
              acc2 ++ [Json.obj [("id", Json.str row.id), ("label", Json.str row.title)]]) acc) []
        Except.ok (root ++ "/send-button-list",
          base ++ [("message", Json.str p.listTitle),
                   ("buttonList", Json.obj [("buttons", Json.arr buttons)])])
    else
      let pair : String × List (String × Json) :=
        if messageType = "image" then (root ++ "/send-image", [("image", Json.str p.mediaUrl)])
        else if messageType = "document" then (root ++ "/send-document", [("document", Json.str p.mediaUrl)])
        else if messageType = "audio" then (root ++ "/send-audio", [("audio", Json.str p.mediaUrl)])
        else if messageType = "video" then (root ++ "/send-video", [("video", Json.str p.mediaUrl)])
        else ("", [])
      let captionPart : List (String × Json) :=
        if p.caption ≠ "" ∧ (messageType = "image" ∨ messageType = "video" ∨ messageType = "document") then
          [("caption", Json.str p.caption)]
        else []
      Except.ok (pair.fst, base ++ pair.snd ++ captionPart)
  build.map (fun eb =>
    { method := "POST"
      url := eb.fst
      headers := [("Content-Type", "application/json"),
                  ("Client-Token", jsStr credentials.clientToken)]
      body := Json.obj eb.snd })

/-- Embedding of `sendEvolutionApi` (WhatsAppSendMessage.node.ts):
destructures `baseUrl`, `apiKey`, `instanceName`; `text` goes to
`sendText`, `buttonList` to `sendList`, everything else to
`sendMedia` with a per-type mimetype (empty for unknown types), an
unconditional `caption` field and a synthesized or defaulted
`fileName`. -/
def sendEvolutionApi (credentials : Credentials) (phoneNumber : String)
    (messageType : String) (p : Params) : Except NodeError RequestDescriptor :=
  let root := jsStr credentials.baseUrl ++ "/message/"
  let inst := jsStr credentials.instanceName
  let base : List (String × Json) := [("number", Json.str phoneNumber)]
  let build : Except NodeError (String × List (String × Json)) :=
    if messageType = "text" then
      Except.ok (root ++ "sendText/" ++ inst, base ++ [("text", Json.str p.message)])
    else if messageType = "buttonList" then
      match p.listSections with
      | none => Except.error malformedListSectionsError
      | some listSections =>
        Except.ok (root ++ "sendList/" ++ inst,
          base ++ [("title", Json.str p.listTitle),
                   ("description", Json.str (jsOr p.listDescription p.listTitle)),
                   ("buttonText", Json.str p.buttonText),
                   ("footerText", Json.str p.footerText),
                   ("values", Json.arr (listSections.map (fun s => Json.obj
                     [("title", Json.str s.title),
                      ("rows", Json.arr (s.rows.map (fun row => Json.obj
                        [("title", Json.str row.title),
                         ("description", Json.str (jsOrOpt row.description "")),
                         ("rowId", Json.str row.id)])))])))])
    else
      let mimetype :=
        if messageType = "image" then "image/png"
        else if messageType = "document" then "application/pdf"
        else if messageType = "audio" then "audio/mp3"
        else if messageType = "video" then "video/mp4"
        else ""
      let fileName :=
        if messageType = "document" then jsOr p.filename "document.pdf"
        else "file." ++ (if messageType = "image" then "png"
          else if messageType = "audio" then "mp3" else "mp4")
      Except.ok (root ++ "sendMedia/" ++ inst,
        base ++ [("mediatype", Json.str messageType),
                 ("mimetype", Json.str mimetype),
                 ("media", Json.str p.mediaUrl),
                 ("caption", Json.str (jsOr p.caption "")),
                 ("fileName", Json.str fileName)])
  build.map (fun eb =>
    { method := "POST"
      url := eb.fst
      headers := [("Content-Type", "application/json"),
                  ("apikey", jsStr credentials.apiKey)]
      body := Json.obj eb.snd })

/-- The raw credential bag returned by `getCredentials('whatsAppApi')`,
with the field names declared in WhatsAppApi.credentials.ts. -/
structure RawCredentials where
  officialAccessToken : String
  officialPhoneNumberId : String
  officialBusinessAccountId : String
  zapiInstanceId : String
  zapiToken : String
  zapiClientToken : String
  zapiBaseUrl : String
  evolutionBaseUrl : String
  evolutionApiKey : String
  evolutionInstanceName : String

/-- Embedding of the credential projection performed inline in
`WhatsAppConfig.execute` (the object literal with the three
conditional spreads): the resulting credential object as an ordered
key/value list, holding only the keys of the matching spread. -/
def selectCredentials (apiProvider : String) (credentials : RawCredentials) :
    List (String × String) :=
  (if apiProvider = "official" then
    [("accessToken", credentials.officialAccessToken),
     ("phoneNumberId", credentials.officialPhoneNumberId),
     ("businessAccountId", credentials.officialBusinessAccountId)]
  else []) ++
  (if apiProvider = "zapi" then
    [("instanceId", credentials.zapiInstanceId),
     ("token", credentials.zapiToken),
     ("clientToken", credentials.zapiClientToken),
     ("baseUrl", credentials.zapiBaseUrl)]
  else []) ++
  (if apiProvider = "evolution" then
    [("baseUrl", credentials.evolutionBaseUrl),
     ("apiKey", credentials.evolutionApiKey),
     ("instanceName", credentials.evolutionInstanceName)]
  else [])

/-- Embedding of the per-item body of `WhatsAppSendMessage.execute` up to
the provider dispatch: the missing/falsy `whatsappConfig.apiProvider`
guard, then the `switch` over the three providers with its `default`
arm. -/
def processItem (config : Option WhatsAppConfig) (phoneNumber : String)
    (messageType : String) (p : Params) : Except NodeError RequestDescriptor :=
  match config with
  | none => Except.error missingConfigError
  | some cfg =>
    if cfg.apiProvider = "" then Except.error missingConfigError
    else if cfg.apiProvider = "official" then
      sendWhatsAppOfficial cfg.credentials phoneNumber messageType p
    else if cfg.apiProvider = "zapi" then
      sendZApi cfg.credentials phoneNumber messageType p
    else if cfg.apiProvider = "evolution" then
      sendEvolutionApi cfg.credentials phoneNumber messageType p
    else Except.error (unknownProviderError cfg.apiProvider)

/-- One input item of `WhatsAppSendMessage.execute`: its JSON payload
(carried through to the success output), the typed view of the
payload's `whatsappConfig` member, and the per-item node parameters. -/
structure Item where
  json : List (String × Json)
  whatsappConfig : Option WhatsAppConfig
  phoneNumber : String
  messageType : String
  params : Params

/-- Processing of one item inside the `try` block: build and send the
request (the transport is the injected `httpRequest` collaborator)
and assemble the success record `{...item.json, messageResponse,
sentTo, messageType, apiProvider}`. -/
def processOne (transport : RequestDescriptor → Json) (item : Item) :
    Except NodeError (List (String × Json)) :=
  match processItem item.whatsappConfig item.phoneNumber item.messageType item.params with
  | Except.error e => Except.error e
  | Except.ok d =>
    Except.ok (item.json ++
      [("messageResponse", transport d),
       ("sentTo", Json.str item.phoneNumber),
       ("messageType", Json.str item.messageType),
       ("apiProvider", Json.str ((item.whatsappConfig.map (fun c => c.apiProvider)).getD ""))])

/-- The item loop of `WhatsAppSendMessage.execute` with its accumulated
`returnData` and the `catch` block: with `continueOnFail` a failed
item contributes `{error: message}` and the loop continues, otherwise
the first error is rethrown and ends the batch. -/
def executeGo (continueOnFail : Bool) (transport : RequestDescriptor → Json) :
    List Item → List (List (String × Json)) → Except NodeError (List (List (String × Json)))
  | [], returnData => Except.ok returnData
  | item :: rest, returnData =>
    match processOne transport item with
    | Except.ok out => executeGo continueOnFail transport rest (returnData ++ [out])
    | Except.error e =>
      if continueOnFail then
        executeGo continueOnFail transport rest
          (returnData ++ [[("error", Json.str e.message)]])
      else Except.error e

/-- Embedding of `WhatsAppSendMessage.execute`: run the item loop with an
empty `returnData`. -/
def WhatsAppSendMessage.execute (continueOnFail : Bool)
    (transport : RequestDescriptor → Json) (items : List Item) :
    Except NodeError (List (List (String × Json))) :=
  executeGo continueOnFail transport items []

/-! Concrete fixtures used to instantiate the theorems below. -/

/-- Node parameters with every field at its empty default and an
unparsable `listSections` string. -/
def emptyParams : Params :=
  { message := "", mediaUrl := "", caption := "", filename := "", listTitle := "",
    listDescription := "", buttonText := "", footerText := "", listSections := none }

/-- A credential object with no field present. -/
def emptyCredentials : Credentials :=
  { accessToken := none, phoneNumberId := none, businessAccountId := none,
    instanceId := none, token := none, clientToken := none, baseUrl := none,
    apiKey := none, instanceName := none }

/-- The credentials of the end-to-end scenario:
`{accessToken:"T", phoneNumberId:"123"}`. -/
def scenarioCredentials : Credentials :=
  { emptyCredentials with accessToken := some "T", phoneNumberId := some "123" }

/-! Helper lemmas. -/

/-- `a || ''` on a possibly missing string is just the value with a
missing field defaulted to the empty string. -/
theorem jsOrOpt_getD (o : Option String) : jsOrOpt o "" = o.getD "" := by
  cases o with
  | none => rfl
  | some s =>
    show jsOr s "" = s
    unfold jsOr
    by_cases hs : s = "" <;> simp [hs]

/-- A push-style left fold over rows appends the mapped rows. -/
theorem rows_foldl_push (f : Row → Json) (rows : List Row) (acc : List Json) :
    rows.foldl (fun a row => a ++ [f row]) acc = acc ++ rows.map f := by
  induction rows generalizing acc with
  | nil => simp
  | cons row rest ih => simp [ih]

/-- The nested push-style fold over sections appends the concatenation of
the per-section mapped rows, in section order then row order. -/
theorem sections_foldl_push (f : Row → Json) (sections : List Section) (acc : List Json) :
    sections.foldl (fun a s => s.rows.foldl (fun a2 row => a2 ++ [f row]) a) acc =
      acc ++ (sections.map (fun s => s.rows.map f)).flatten := by
  induction sections generalizing acc with
  | nil => simp
  | cons s rest ih =>
    rw [List.foldl_cons, rows_foldl_push, ih]
    simp [List.append_assoc]

/-- The Z-API button accumulation loop equals the ordered flattening of
all rows of all sections. -/
theorem zapiButtons_eq (sections : List Section) :
    sections.foldl (fun acc s => s.rows.foldl (fun acc2 row =>
        acc2 ++ [Json.obj [("id", Json.str row.id), ("label", Json.str row.title)]]) acc) [] =
      (sections.map (fun s => s.rows.map (fun row =>
        Json.obj [("id", Json.str row.id), ("label", Json.str row.title)]))).flatten := by
  have h := sections_foldl_push
    (fun row => Json.obj [("id", Json.str row.id), ("label", Json.str row.title)]) sections []
  simpa using h

/-- C1: for provider `official`, intent `text`, phone `"5511999999999"`,
message `"hi"` and credentials `{accessToken:"T", phoneNumberId:"123"}`,
the builder produces exactly the descriptor
`POST https://graph.facebook.com/v18.0/123/messages` with the Bearer
header and the `{messaging_product, to, type, text}` body. -/
theorem C1_official_text_descriptor :
    processItem (some { apiProvider := "official", credentials := scenarioCredentials })
      "5511999999999" "text" { emptyParams with message := "hi" } =
    Except.ok
      { method := "POST"
        url := "https://graph.facebook.com/v18.0/123/messages"
        headers := [("Authorization", "Bearer T"), ("Content-Type", "application/json")]
        body := Json.obj [("messaging_product", Json.str "whatsapp"),
          ("to", Json.str "5511999999999"),
          ("type", Json.str "text"),
          ("text", Json.obj [("body", Json.str "hi")])] } := rfl

/-- C2: the credential projection is provider-exclusive: the `zapi`
projection has exactly the keys `instanceId, token, clientToken,
baseUrl` (in particular neither `accessToken` nor `apiKey` nor
`businessAccountId`), the `official` projection exactly `accessToken,
phoneNumberId, businessAccountId`, and the `evolution` projection
exactly `baseUrl, apiKey, instanceName`, for every raw credential
bag. -/
theorem C2_credential_projection_exclusive (raw : RawCredentials) :
    ((selectCredentials "zapi" raw).map Prod.fst = ["instanceId", "token", "clientToken", "baseUrl"] ∧
      "accessToken" ∉ (selectCredentials "zapi" raw).map Prod.fst ∧
      "apiKey" ∉ (selectCredentials "zapi" raw).map Prod.fst ∧
      "businessAccountId" ∉ (selectCredentials "zapi" raw).map Prod.fst) ∧
    ((selectCredentials "official" raw).map Prod.fst = ["accessToken", "phoneNumberId", "businessAccountId"] ∧
      "instanceId" ∉ (selectCredentials "official" raw).map Prod.fst ∧
      "apiKey" ∉ (selectCredentials "official" raw).map Prod.fst ∧
      "baseUrl" ∉ (selectCredentials "official" raw).map Prod.fst) ∧
    ((selectCredentials "evolution" raw).map Prod.fst = ["baseUrl", "apiKey", "instanceName"] ∧
      "accessToken" ∉ (selectCredentials "evolution" raw).map Prod.fst ∧
      "token" ∉ (selectCredentials "evolution" raw).map Prod.fst ∧
      "businessAccountId" ∉ (selectCredentials "evolution" raw).map Prod.fst) := by
  have hz : (selectCredentials "zapi" raw).map Prod.fst
      = ["instanceId", "token", "clientToken", "baseUrl"] := rfl
  have ho : (selectCredentials "official" raw).map Prod.fst
      = ["accessToken", "phoneNumberId", "businessAccountId"] := rfl
  have he : (selectCredentials "evolution" raw).map Prod.fst
      = ["baseUrl", "apiKey", "instanceName"] := rfl
  refine ⟨⟨hz, ?_, ?_, ?_⟩, ⟨ho, ?_, ?_, ?_⟩, ⟨he, ?_, ?_, ?_⟩⟩ <;>
    first
      | (rw [hz]; decide)
      | (rw [ho]; decide)
      | (rw [he]; decide)

/-- C3 (counterexample): the empty string is outside the provider
enumeration, yet processing fails with the missing-configuration
error (the `!whatsappConfig.apiProvider` guard fires first), not with
the unknown-provider error of the switch's `default` arm. -/
theorem C3_counterexample_empty_provider :
    ("" : String) ∉ (["official", "zapi", "evolution"] : List String) ∧
    processItem (some { apiProvider := "", credentials := emptyCredentials })
      "5511999999999" "text" emptyParams = Except.error missingConfigError ∧
    missingConfigError ≠ unknownProviderError "" ∧
    isUnknownProviderError missingConfigError = false :=
  ⟨by decide, rfl, by decide, by decide⟩

/-- C3 (amended): for every non-empty `apiProvider` outside
`{official, zapi, evolution}`, processing the item fails with the
unknown-provider error and no HTTP request is attempted (the empty
value instead fails with the missing-configuration error, also
without a request). -/
theorem C3_unknown_provider_rejected (provider : String)
    (h1 : provider ∉ (["official", "zapi", "evolution"] : List String))
    (h2 : provider ≠ "")
    (creds : Credentials) (phoneNumber messageType : String) (p : Params) :
    processItem (some { apiProvider := provider, credentials := creds })
        phoneNumber messageType p = Except.error (unknownProviderError provider) ∧
    reqAttempted (processItem (some { apiProvider := provider, credentials := creds })
        phoneNumber messageType p) = false := by
  have ho : provider ≠ "official" := fun hh => h1 (by simp [hh])
  have hz : provider ≠ "zapi" := fun hh => h1 (by simp [hh])
  have he : provider ≠ "evolution" := fun hh => h1 (by simp [hh])
  refine ⟨?_, ?_⟩ <;> simp [processItem, h2, ho, hz, he, reqAttempted]

/-- C3 (witness): the amended theorem at the concrete provider `"foo"`. -/
theorem C3_unknown_provider_rejected_witness :
    (("foo" : String) ∉ (["official", "zapi", "evolution"] : List String) ∧
      ("foo" : String) ≠ "") ∧
    processItem (some { apiProvider := "foo", credentials := emptyCredentials })
        "5511999999999" "text" emptyParams = Except.error (unknownProviderError "foo") ∧
    reqAttempted (processItem (some { apiProvider := "foo", credentials := emptyCredentials })
        "5511999999999" "text" emptyParams) = false :=
  ⟨⟨by decide, by decide⟩,
    C3_unknown_provider_rejected "foo" (by decide) (by decide)
      emptyCredentials "5511999999999" "text" emptyParams⟩

/-- C4: for each of the three providers, when the `listSections`
parameter of a `buttonList` message is not parsable as JSON, the
builder fails with the `Invalid JSON format for List Sections` error
and no HTTP request is attempted. -/
theorem C4_malformed_listSections_rejected (provider : String)
    (hp : provider ∈ (["official", "zapi", "evolution"] : List String))
    (creds : Credentials) (phoneNumber : String) (p : Params)
    (h : p.listSections = none) :
    processItem (some { apiProvider := provider, credentials := creds })
        phoneNumber "buttonList" p = Except.error malformedListSectionsError ∧
    reqAttempted (processItem (some { apiProvider := provider, credentials := creds })
        phoneNumber "buttonList" p) = false := by
  have hcases : provider = "official" ∨ provider = "zapi" ∨ provider = "evolution" := by
    simpa using hp
  rcases hcases with rfl | rfl | rfl <;>
    refine ⟨?_, ?_⟩ <;>
      simp [processItem, sendWhatsAppOfficial, sendZApi, sendEvolutionApi, h,
        reqAttempted, Except.map]

/-- C4 (witness): the theorem at provider `"zapi"` with the default
parameter object, whose `listSections` does not parse. -/
theorem C4_malformed_listSections_rejected_witness :
    (("zapi" : String) ∈ (["official", "zapi", "evolution"] : List String) ∧
      emptyParams.listSections = none) ∧
    processItem (some { apiProvider := "zapi", credentials := emptyCredentials })
        "5511999999999" "buttonList" emptyParams = Except.error malformedListSectionsError ∧
    reqAttempted (processItem (some { apiProvider := "zapi", credentials := emptyCredentials })
        "5511999999999" "buttonList" emptyParams) = false :=
  ⟨⟨by decide, rfl⟩,
    C4_malformed_listSections_rejected "zapi" (by decide)
      emptyCredentials "5511999999999" emptyParams rfl⟩

/-- C5 (counterexample): the unknown intent `"foo"` is not rejected by
the Official builder: it falls into the media branch and an HTTP
request is attempted with `type:"foo"` and a `foo:{link:...}` body
member, instead of failing with the malformed-input error. -/
theorem C5_counterexample_unknown_intent_sends :
    ("foo" : String) ∉ (["text", "image", "document", "audio", "video", "buttonList"] : List String) ∧
    sendWhatsAppOfficial scenarioCredentials "5511999999999" "foo" emptyParams =
      Except.ok
        { method := "POST"
          url := "https://graph.facebook.com/v18.0/123/messages"
          headers := [("Authorization", "Bearer T"), ("Content-Type", "application/json")]
          body := Json.obj [("messaging_product", Json.str "whatsapp"),
            ("to", Json.str "5511999999999"),
            ("type", Json.str "foo"),
            ("foo", Json.obj [("link", Json.str "")])] } ∧
    reqAttempted (sendWhatsAppOfficial scenarioCredentials "5511999999999" "foo" emptyParams) = true :=
  ⟨by decide, rfl, rfl⟩

/-- C5 (amended): an intent outside the enumeration is not rejected by
any of the three builder variants: each one handles it in its media
branch and an HTTP request is attempted (Official with `type` equal to
the intent, Z-API with an empty endpoint, Evolution via `sendMedia`
with an empty mimetype); no `MalformedInputError` is raised. -/
theorem C5_unknown_intent_attempts_request (messageType : String)
    (h : messageType ∉ (["text", "image", "document", "audio", "video", "buttonList"] : List String))
    (creds : Credentials) (phoneNumber : String) (p : Params) :
    reqAttempted (sendWhatsAppOfficial creds phoneNumber messageType p) = true ∧
    reqAttempted (sendZApi creds phoneNumber messageType p) = true ∧
    reqAttempted (sendEvolutionApi creds phoneNumber messageType p) = true := by
  have ht : messageType ≠ "text" := fun hh => h (by simp [hh])
  have hb : messageType ≠ "buttonList" := fun hh => h (by simp [hh])
  refine ⟨?_, ?_, ?_⟩ <;>
    simp [sendWhatsAppOfficial, sendZApi, sendEvolutionApi, ht, hb,
      reqAttempted, Except.map]

/-- C5 (witness): the amended theorem at the concrete intent `"foo"`. -/
theorem C5_unknown_intent_attempts_request_witness :
    ("foo" : String) ∉ (["text", "image", "document", "audio", "video", "buttonList"] : List String) ∧
    (reqAttempted (sendWhatsAppOfficial emptyCredentials "5511999999999" "foo" emptyParams) = true ∧
      reqAttempted (sendZApi emptyCredentials "5511999999999" "foo" emptyParams) = true ∧
      reqAttempted (sendEvolutionApi emptyCredentials "5511999999999" "foo" emptyParams) = true) :=
  ⟨by decide,
    C5_unknown_intent_attempts_request "foo" (by decide)
      emptyCredentials "5511999999999" emptyParams⟩

/-- C6: for intent `buttonList` under Z-API, the builder flattens every
row of every section into one sequence of `{id, label}` entries with
`label` the row's title, preserving section order and then row order
within each section (the `buttons` array equals the ordered
concatenation of the per-section row mappings). -/
theorem C6_zapi_buttonList_flatten (creds : Credentials) (phoneNumber : String)
    (p : Params) (sections : List Section) (h : p.listSections = some sections) :
    ∃ d, sendZApi creds phoneNumber "buttonList" p = Except.ok d ∧
      d.body.lookupKey "buttonList" =
        some (Json.obj [("buttons", Json.arr
          ((sections.map (fun s => s.rows.map (fun row =>
            Json.obj [("id", Json.str row.id), ("label", Json.str row.title)]))).flatten))]) := by
  obtain ⟨m, mu, cap, fn, lt, ld, bt, ft, ls⟩ := p
  change ls = some sections at h
  subst h
  refine ⟨_, rfl, ?_⟩
  have hb := zapiButtons_eq sections
  show some (Json.obj [("buttons", Json.arr _)]) = some (Json.obj [("buttons", Json.arr _)])
  rw [hb]

/-- Concrete `listSections` value with two sections of 2 and 1 rows. -/
def twoSections : List Section :=
  [{ title := "S1", rows := [{ id := "r1", title := "A", description := some "d1" },
                             { id := "r2", title := "B", description := none }] },
   { title := "S2", rows := [{ id := "r3", title := "C", description := some "d3" }] }]

/-- Parameters carrying `twoSections` as the parsed `listSections`. -/
def twoSectionParams : Params :=
  { emptyParams with listSections := some twoSections }

/-- C6 (witness): two sections with 2 and 1 rows flatten to exactly 3
entries, in section order then row order. -/
theorem C6_zapi_buttonList_flatten_witness :
    twoSectionParams.listSections = some twoSections ∧
    ∃ d, sendZApi emptyCredentials "5511999999999" "buttonList" twoSectionParams
        = Except.ok d ∧
      d.body.lookupKey "buttonList" =
        some (Json.obj [("buttons", Json.arr
          [Json.obj [("id", Json.str "r1"), ("label", Json.str "A")],
           Json.obj [("id", Json.str "r2"), ("label", Json.str "B")],
           Json.obj [("id", Json.str "r3"), ("label", Json.str "C")]])]) :=
  ⟨rfl, C6_zapi_buttonList_flatten emptyCredentials "5511999999999" twoSectionParams twoSections rfl⟩

/-- The exact result of the Official builder on a `buttonList` message
whose sections parsed, with the two conditional members left
symbolic; equal by unfolding. -/
theorem official_buttonList_eq (creds : Credentials) (phoneNumber : String)
    (m mu cap fn lt ld bt ft : String) (sections : List Section) :
    sendWhatsAppOfficial creds phoneNumber "buttonList"
        { message := m, mediaUrl := mu, caption := cap, filename := fn, listTitle := lt,
          listDescription := ld, buttonText := bt, footerText := ft,
          listSections := some sections } =
      Except.ok
        { method := "POST"
          url := "https://graph.facebook.com/v18.0/" ++ jsStr creds.phoneNumberId ++ "/messages"
          headers := [("Authorization", "Bearer " ++ jsStr creds.accessToken),
                      ("Content-Type", "application/json")]
          body := Json.obj
            [("messaging_product", Json.str "whatsapp"),
             ("to", Json.str phoneNumber),
             ("type", Json.str "interactive"),
             ("interactive", Json.obj
               ([("type", Json.str "list"),
                 ("body", Json.obj [("text", Json.str (jsOr ld lt))]),
                 ("action", Json.obj
                   [("button", Json.str bt),
                    ("sections", Json.arr (sections.map (fun s => Json.obj
                      [("title", Json.str s.title),
                       ("rows", Json.arr (s.rows.map (fun row => Json.obj
                         [("id", Json.str row.id),
                          ("title", Json.str row.title),
                          ("description", Json.str (jsOrOpt row.description ""))])))])))])] ++
                (if lt ≠ "" ∧ ld ≠ "" then
                  [("header", Json.obj [("type", Json.str "text"), ("text", Json.str lt)])]
                else []) ++
                (if ft ≠ "" then
                  [("footer", Json.obj [("text", Json.str ft)])]
                else [])))] } := rfl

/-- C7: for intent `buttonList` under the Official provider,
`action.sections` maps the parsed `listSections` one to one,
preserving each row's `id` and `title` and defaulting a missing row
`description` to the empty string; and the `header:{type:"text",
text:listTitle}` member is present in the interactive object exactly
when both `listTitle` and `listDescription` are non-empty. -/
theorem C7_official_buttonList_sections_header (creds : Credentials) (phoneNumber : String)
    (p : Params) (sections : List Section) (h : p.listSections = some sections) :
    ((bodyLookup (sendWhatsAppOfficial creds phoneNumber "buttonList" p) "interactive").bind
        (fun i => (i.lookupKey "action").bind (fun a => a.lookupKey "sections")) =
      some (Json.arr (sections.map (fun s => Json.obj
        [("title", Json.str s.title),
         ("rows", Json.arr (s.rows.map (fun row => Json.obj
           [("id", Json.str row.id),
            ("title", Json.str row.title),
            ("description", Json.str (row.description.getD ""))])))])))) ∧
    ((bodyLookup (sendWhatsAppOfficial creds phoneNumber "buttonList" p) "interactive").bind
        (fun i => i.lookupKey "header") =
      some (Json.obj [("type", Json.str "text"), ("text", Json.str p.listTitle)]) ↔
      (p.listTitle ≠ "" ∧ p.listDescription ≠ "")) := by
  obtain ⟨m, mu, cap, fn, lt, ld, bt, ft, ls⟩ := p
  change ls = some sections at h
  subst h
  rw [official_buttonList_eq]
  constructor
  · simp [bodyLookup, Json.lookupKey, lookupField, jsOrOpt_getD]
  · by_cases h1 : lt = "" <;> by_cases h2 : ld = "" <;> by_cases h3 : ft = "" <;>
      simp [bodyLookup, Json.lookupKey, lookupField, h1, h2, h3]

/-- C7 (witness): the theorem at the concrete two-section input and the
scenario credentials (whose `listTitle` and `listDescription` are
empty, so no header is attached). -/
theorem C7_official_buttonList_sections_header_witness :
    twoSectionParams.listSections = some twoSections ∧
    (((bodyLookup (sendWhatsAppOfficial scenarioCredentials "5511999999999" "buttonList"
          twoSectionParams) "interactive").bind
        (fun i => (i.lookupKey "action").bind (fun a => a.lookupKey "sections")) =
      some (Json.arr (twoSections.map (fun s => Json.obj
        [("title", Json.str s.title),
         ("rows", Json.arr (s.rows.map (fun row => Json.obj
           [("id", Json.str row.id),
            ("title", Json.str row.title),
            ("description", Json.str (row.description.getD ""))])))])))) ∧
      ((bodyLookup (sendWhatsAppOfficial scenarioCredentials "5511999999999" "buttonList"
          twoSectionParams) "interactive").bind
        (fun i => i.lookupKey "header") =
        some (Json.obj [("type", Json.str "text"), ("text", Json.str twoSectionParams.listTitle)]) ↔
        (twoSectionParams.listTitle ≠ "" ∧ twoSectionParams.listDescription ≠ ""))) :=
  ⟨rfl, C7_official_buttonList_sections_header scenarioCredentials "5511999999999"
    twoSectionParams twoSections rfl⟩

/-- `a || ''` is the identity on strings. -/
theorem jsOr_empty (a : String) : jsOr a "" = a := by
  unfold jsOr
  by_cases ha : a = "" <;> simp [ha]

/-- C8 (counterexample): the Evolution variant does not ignore the
caption for audio: the supplied caption `"X"` appears verbatim as the
`caption` member of the `sendMedia` body. -/
theorem C8_counterexample_evolution_audio_caption :
    sendEvolutionApi emptyCredentials "5511999999999" "audio"
        { emptyParams with caption := "X" } =
      Except.ok
        { method := "POST"
          url := "undefined/message/sendMedia/undefined"
          headers := [("Content-Type", "application/json"), ("apikey", "undefined")]
          body := Json.obj [("number", Json.str "5511999999999"),
            ("mediatype", Json.str "audio"),
            ("mimetype", Json.str "audio/mp3"),
            ("media", Json.str ""),
            ("caption", Json.str "X"),
            ("fileName", Json.str "file.mp3")] } ∧
    bodyLookup (sendEvolutionApi emptyCredentials "5511999999999" "audio"
        { emptyParams with caption := "X" }) "caption" = some (Json.str "X") :=
  ⟨rfl, rfl⟩

/-- C8 (amended): for intent `audio` the caption parameter is ignored by
the Official and Z-API variants (their results do not depend on it),
but the Evolution variant always places the supplied caption string in
the `caption` member of its `sendMedia` body. -/
theorem C8_audio_caption_handling :
    (∀ (creds : Credentials) (phoneNumber : String) (p : Params) (c : String),
      sendWhatsAppOfficial creds phoneNumber "audio" { p with caption := c } =
        sendWhatsAppOfficial creds phoneNumber "audio" p) ∧
    (∀ (creds : Credentials) (phoneNumber : String) (p : Params) (c : String),
      sendZApi creds phoneNumber "audio" { p with caption := c } =
        sendZApi creds phoneNumber "audio" p) ∧
    (∀ (creds : Credentials) (phoneNumber : String) (p : Params),
      bodyLookup (sendEvolutionApi creds phoneNumber "audio" p) "caption" =
        some (Json.str p.caption)) := by
  refine ⟨?_, ?_, ?_⟩
  · intro creds phoneNumber p c
    simp [sendWhatsAppOfficial]
  · intro creds phoneNumber p c
    simp [sendZApi]
  · intro creds phoneNumber p
    simp [sendEvolutionApi, bodyLookup, Json.lookupKey, lookupField, Except.map, jsOr_empty]

/-- With `continueOnFail`, the loop maps every item independently:
successes keep their record and failures contribute `{error:
message}`; the accumulator is only ever appended to. -/
theorem executeGo_continue_eq (transport : RequestDescriptor → Json)
    (items : List Item) (acc : List (List (String × Json))) :
    executeGo true transport items acc =
      Except.ok (acc ++ items.map (fun item =>
        match processOne transport item with
        | Except.ok out => out
        | Except.error e => [("error", Json.str e.message)])) := by
  induction items generalizing acc with
  | nil => simp [executeGo]
  | cons item rest ih =>
    cases hpo : processOne transport item with
    | ok out => simp [executeGo, hpo, ih]
    | error e => simp [executeGo, hpo, ih]

/-- Without `continueOnFail`, the first failing item rethrows its error,
whatever items and accumulated results come before or after it. -/
theorem executeGo_abort (transport : RequestDescriptor → Json) (e : NodeError) :
    ∀ (pre : List Item) (bad : Item) (post : List Item) (acc : List (List (String × Json))),
      (∀ it ∈ pre, ∃ out, processOne transport it = Except.ok out) →
      processOne transport bad = Except.error e →
      executeGo false transport (pre ++ bad :: post) acc = Except.error e := by
  intro pre
  induction pre with
  | nil =>
    intro bad post acc hpre hbad
    simp [executeGo, hbad]
  | cons it rest ih =>
    intro bad post acc hpre hbad
    obtain ⟨out, hout⟩ := hpre it (by simp)
    simp only [List.cons_append, executeGo, hout]
    exact ih bad post _ (fun x hx => hpre x (by simp [hx])) hbad

/-- C9: with continue-on-failure enabled, a failure never aborts later
items: the batch succeeds with one record per item, `{error: message}`
for the failed ones; with it disabled, the first failure (every
earlier item having succeeded) aborts the batch with that error,
independently of the items after it. -/
theorem C9_continue_on_failure (transport : RequestDescriptor → Json) :
    (∀ items : List Item,
      WhatsAppSendMessage.execute true transport items =
        Except.ok (items.map (fun item =>
          match processOne transport item with
          | Except.ok out => out
          | Except.error e => [("error", Json.str e.message)]))) ∧
    (∀ (pre : List Item) (bad : Item) (post : List Item) (e : NodeError),
      (∀ it ∈ pre, ∃ out, processOne transport it = Except.ok out) →
      processOne transport bad = Except.error e →
      WhatsAppSendMessage.execute false transport (pre ++ bad :: post) =
        Except.error e) := by
  constructor
  · intro items
    simp [WhatsAppSendMessage.execute, executeGo_continue_eq]
  · intro pre bad post e hpre hbad
    exact executeGo_abort transport e pre bad post [] hpre hbad

/-- An item that sends successfully (the end-to-end text scenario). -/
def goodItem : Item :=
  { json := []
    whatsappConfig := some { apiProvider := "official", credentials := scenarioCredentials }
    phoneNumber := "5511999999999"
    messageType := "text"
    params := { emptyParams with message := "hi" } }

/-- An item with no `whatsappConfig`, which always fails. -/
def badItem : Item :=
  { json := [], whatsappConfig := none, phoneNumber := "5511999999999",
    messageType := "text", params := emptyParams }

/-- A transport stub returning a fixed JSON acknowledgement. -/
def okTransport : RequestDescriptor → Json :=
  fun _ => Json.obj [("ok", Json.str "true")]

/-- The success record produced for `goodItem` under `okTransport`. -/
def goodItemOut : List (String × Json) :=
  [("messageResponse", Json.obj [("ok", Json.str "true")]),
   ("sentTo", Json.str "5511999999999"),
   ("messageType", Json.str "text"),
   ("apiProvider", Json.str "official")]

/-- C9 (witness): on the batch `[good, bad, good]`, disabled
continue-on-failure aborts with the bad item's error while enabled
continue-on-failure yields three records with `{error: message}` in
the middle. -/
theorem C9_continue_on_failure_witness :
    ((∀ it ∈ [goodItem], ∃ out, processOne okTransport it = Except.ok out) ∧
      processOne okTransport badItem = Except.error missingConfigError) ∧
    WhatsAppSendMessage.execute false okTransport [goodItem, badItem, goodItem] =
      Except.error missingConfigError ∧
    WhatsAppSendMessage.execute true okTransport [goodItem, badItem, goodItem] =
      Except.ok [goodItemOut, [("error", Json.str missingConfigError.message)], goodItemOut] := by
  have hpre : ∀ it ∈ [goodItem], ∃ out, processOne okTransport it = Except.ok out := by
    intro it hit
    simp only [List.mem_singleton] at hit
    subst hit
    exact ⟨goodItemOut, rfl⟩
  refine ⟨⟨hpre, rfl⟩, ?_, ?_⟩
  · exact (C9_continue_on_failure okTransport).2 [goodItem] badItem [goodItem]
      missingConfigError hpre rfl
  · exact (C9_continue_on_failure okTransport).1 [goodItem, badItem, goodItem]

/-- C10: the Official builder's output does not depend on
`businessAccountId`: two credential objects equal on every other field
produce the same method, url, headers and body for every phone
number, intent and parameter object. -/
theorem C10_official_ignores_businessAccountId (c1 c2 : Credentials)
    (hAT : c1.accessToken = c2.accessToken)
    (hPN : c1.phoneNumberId = c2.phoneNumberId)
    (hII : c1.instanceId = c2.instanceId)
    (hTK : c1.token = c2.token)
    (hCT : c1.clientToken = c2.clientToken)
    (hBU : c1.baseUrl = c2.baseUrl)
    (hAK : c1.apiKey = c2.apiKey)
    (hIN : c1.instanceName = c2.instanceName)
    (phoneNumber messageType : String) (p : Params) :
    sendWhatsAppOfficial c1 phoneNumber messageType p =
      sendWhatsAppOfficial c2 phoneNumber messageType p := by
  simp only [sendWhatsAppOfficial, hAT, hPN]

/-- Credentials of the scenario extended with one business account id. -/
def credsBizA : Credentials :=
  { scenarioCredentials with businessAccountId := some "B1" }

/-- The same credentials with a different business account id. -/
def credsBizB : Credentials :=
  { scenarioCredentials with businessAccountId := some "B2" }

/-- C10 (witness): two concrete credential objects differing exactly in
`businessAccountId` produce identical text-message descriptors. -/
theorem C10_official_ignores_businessAccountId_witness :
    (credsBizA.accessToken = credsBizB.accessToken ∧
      credsBizA.phoneNumberId = credsBizB.phoneNumberId ∧
      credsBizA.instanceId = credsBizB.instanceId ∧
      credsBizA.token = credsBizB.token ∧
      credsBizA.clientToken = credsBizB.clientToken ∧
      credsBizA.baseUrl = credsBizB.baseUrl ∧
      credsBizA.apiKey = credsBizB.apiKey ∧
      credsBizA.instanceName = credsBizB.instanceName ∧
      credsBizA.businessAccountId ≠ credsBizB.businessAccountId) ∧
    sendWhatsAppOfficial credsBizA "5511999999999" "text" { emptyParams with message := "hi" } =
      sendWhatsAppOfficial credsBizB "5511999999999" "text" { emptyParams with message := "hi" } :=
  ⟨⟨rfl, rfl, rfl, rfl, rfl, rfl, rfl, rfl, by decide⟩,
    C10_official_ignores_businessAccountId credsBizA credsBizB rfl rfl rfl rfl rfl rfl rfl rfl
      "5511999999999" "text" { emptyParams with message := "hi" }⟩

/-- A concrete raw credential bag with every provider's fields filled. -/
def fullRawCredentials : RawCredentials :=
  { officialAccessToken := "oa", officialPhoneNumberId := "op",
    officialBusinessAccountId := "ob", zapiInstanceId := "zi", zapiToken := "zt",
    zapiClientToken := "zc", zapiBaseUrl := "zb", evolutionBaseUrl := "eb",
    evolutionApiKey := "ek", evolutionInstanceName := "en" }

/-- C2 (witness): the projection theorem at a concrete full bag. -/
theorem C2_credential_projection_exclusive_witness :
    ((selectCredentials "zapi" fullRawCredentials).map Prod.fst
        = ["instanceId", "token", "clientToken", "baseUrl"] ∧
      "accessToken" ∉ (selectCredentials "zapi" fullRawCredentials).map Prod.fst ∧
      "apiKey" ∉ (selectCredentials "zapi" fullRawCredentials).map Prod.fst ∧
      "businessAccountId" ∉ (selectCredentials "zapi" fullRawCredentials).map Prod.fst) ∧
    ((selectCredentials "official" fullRawCredentials).map Prod.fst
        = ["accessToken", "phoneNumberId", "businessAccountId"] ∧
      "instanceId" ∉ (selectCredentials "official" fullRawCredentials).map Prod.fst ∧
      "apiKey" ∉ (selectCredentials "official" fullRawCredentials).map Prod.fst ∧
      "baseUrl" ∉ (selectCredentials "official" fullRawCredentials).map Prod.fst) ∧
    ((selectCredentials "evolution" fullRawCredentials).map Prod.fst
        = ["baseUrl", "apiKey", "instanceName"] ∧
      "accessToken" ∉ (selectCredentials "evolution" fullRawCredentials).map Prod.fst ∧
      "token" ∉ (selectCredentials "evolution" fullRawCredentials).map Prod.fst ∧
      "businessAccountId" ∉ (selectCredentials "evolution" fullRawCredentials).map Prod.fst) :=
  C2_credential_projection_exclusive fullRawCredentials

/-- C8 (witness): the amended caption behaviour at concrete inputs. -/
theorem C8_audio_caption_handling_witness :
    sendWhatsAppOfficial scenarioCredentials "5511999999999" "audio"
        { emptyParams with caption := "X" } =
      sendWhatsAppOfficial scenarioCredentials "5511999999999" "audio" emptyParams ∧
    sendZApi scenarioCredentials "5511999999999" "audio"
        { emptyParams with caption := "X" } =
      sendZApi scenarioCredentials "5511999999999" "audio" emptyParams ∧
    bodyLookup (sendEvolutionApi scenarioCredentials "5511999999999" "audio"
        { emptyParams with caption := "X" }) "caption" =
      some (Json.str ({ emptyParams with caption := "X" } : Params).caption) :=
  ⟨C8_audio_caption_handling.1 scenarioCredentials "5511999999999" emptyParams "X",
    C8_audio_caption_handling.2.1 scenarioCredentials "5511999999999" emptyParams "X",
    C8_audio_caption_handling.2.2 scenarioCredentials "5511999999999"
      { emptyParams with caption := "X" }⟩

end WhatsApp
